import Mathlib

/-!
Verification of `sync_snowflake_packages.py`: a three-stage pipeline that
downloads Python packages with pip (`download_packages`), bundles them into a
zip archive (`create_zip`), and uploads the archive to a Snowflake stage
(`upload_to_snowflake`), sequenced by `main`.

Filesystem paths are modelled as lists of path components.  The archiver is
modelled over an explicit directory tree, following `os.walk`.  The effectful
stages (pip invocation, Snowflake driver calls, cleanup) are modelled as the
traces of external calls they make, transcribed from the source.
-/

namespace SyncSnowflakePackages

/-- A directory tree on disk: the regular files directly inside the
directory, and the named subdirectories with their own trees. -/
inductive DirTree : Type where
  | node (files : List String) (subdirs : List (String × DirTree))

/-- Induction over a directory tree: to prove `P` for a node it suffices to
prove it for each named subtree. -/
theorem DirTree.inductionOn (P : DirTree → Prop)
    (h : ∀ files subdirs, (∀ x, x ∈ subdirs → P x.2) → P (DirTree.node files subdirs)) :
    ∀ t, P t
  | DirTree.node files subdirs =>
    h files subdirs (fun x hx => DirTree.inductionOn P h x.2)
termination_by t => sizeOf t
decreasing_by
  have h1 : sizeOf x < sizeOf subdirs := List.sizeOf_lt_of_mem hx
  have h2 : sizeOf x.2 < sizeOf x := by
    rcases x with ⟨n, u⟩
    simp
  simp
  omega

/-- Model of `os.path.join root name` at the path-component level. -/
def joinPath (root : List String) (name : String) : List String := root ++ [name]

/-- Model of `os.path.relpath p base` for a path `p` lying under `base`: the
remaining components after the `base` prefix. -/
def relpath (p base : List String) : List String := p.drop base.length

/-- Model of `os.walk root`: one `(dirpath, dirnames, filenames)` triple for
the root directory followed, top-down, by the triples of every subdirectory. -/
def walk (root : List String) : DirTree → List (List String × List String × List String)
  | DirTree.node files subdirs =>
    (root, subdirs.map Prod.fst, files) ::
      (subdirs.attach.map (fun x => walk (joinPath root x.1.1) x.1.2)).flatten
termination_by t => sizeOf t
decreasing_by
  have h1 : sizeOf x.1 < sizeOf subdirs := List.sizeOf_lt_of_mem x.2
  have h2 : sizeOf x.1.2 < sizeOf x.1 := by
    rcases x with ⟨⟨n, u⟩, hx⟩
    simp
  simp
  omega

/-- The archive produced by `create_zip`: the ordered list of entry names
written into it.  The file is created as soon as the archive is opened for
writing, before any entry is written. -/
structure ZipArchive : Type where
  entries : List (List String)
deriving DecidableEq

/-- The archiver `create_zip source_dir t`: opens the output archive for writing and, for
every `(root, _, files)` triple of `os.walk(source_dir)` and every `file` in
`files`, writes the file at `os.path.join(root, file)` under the entry name
`os.path.relpath(file_path, source_dir)`. -/
def create_zip (source_dir : List String) (t : DirTree) : ZipArchive :=
  ZipArchive.mk (((walk source_dir t).map
    (fun e => e.2.2.map (fun file => relpath (joinPath e.1 file) source_dir))).flatten)

/-- Spec-side description of the archive contents: the recursive listing of
every regular file under the tree, named by its path relative to the tree
root, with no entries for directories and no filtering or deduplication. -/
def filesUnder : DirTree → List (List String)
  | DirTree.node files subdirs =>
    files.map (fun f => [f]) ++
      (subdirs.attach.map (fun x => (filesUnder x.1.2).map (fun p => x.1.1 :: p))).flatten
termination_by t => sizeOf t
decreasing_by
  have h1 : sizeOf x.1 < sizeOf subdirs := List.sizeOf_lt_of_mem x.2
  have h2 : sizeOf x.1.2 < sizeOf x.1 := by
    rcases x with ⟨⟨n, u⟩, hx⟩
    simp
  simp
  omega

/-- The entry names `create_zip` writes while walking at `src ++ rel` are the
relative file listing of the tree, shifted by `rel`. -/
theorem walk_writes (src : List String) (t : DirTree) :
    ∀ rel : List String,
      ((walk (src ++ rel) t).map
        (fun e => e.2.2.map (fun file => relpath (joinPath e.1 file) src))).flatten
      = (filesUnder t).map (fun p => rel ++ p) := by
  induction t using DirTree.inductionOn with
  | _ files subdirs ih =>
    intro rel
    rw [walk, filesUnder]
    simp only [List.map_cons, List.flatten_cons, List.map_append, List.map_flatten,
      List.map_map, List.flatten_flatten]
    congr 1
    · simp [relpath, joinPath, List.map_map, List.append_assoc]
    · congr 1
      refine List.map_congr_left (fun x hx => ?_)
      have hrec := ih x.1 x.2 (rel ++ [x.1.1])
      simp only [Function.comp, joinPath, List.append_assoc] at hrec ⊢
      rw [hrec]
      simp [List.map_map, List.append_assoc]

/-- The archive's entry list is exactly the recursive relative file listing
of the source tree. -/
theorem create_zip_entries_eq (source_dir : List String) (t : DirTree) :
    (create_zip source_dir t).entries = filesUnder t := by
  have h := walk_writes source_dir t []
  simpa [create_zip] using h

/-- A tree with no regular files anywhere: no files at the root and every
subdirectory again has no files. -/
def noFiles : DirTree → Bool
  | DirTree.node files subdirs =>
    files.isEmpty && (subdirs.attach.map (fun x => noFiles x.1.2)).all (fun b => b)
termination_by t => sizeOf t
decreasing_by
  have h1 : sizeOf x.1 < sizeOf subdirs := List.sizeOf_lt_of_mem x.2
  have h2 : sizeOf x.1.2 < sizeOf x.1 := by
    rcases x with ⟨⟨n, u⟩, hx⟩
    simp
  simp
  omega

/-- A tree with no files anywhere has an empty recursive file listing. -/
theorem filesUnder_eq_nil_of_noFiles (t : DirTree) (h : noFiles t = true) :
    filesUnder t = [] := by
  induction t using DirTree.inductionOn with
  | _ files subdirs ih =>
    rw [noFiles] at h
    rw [filesUnder]
    simp only [Bool.and_eq_true, List.all_eq_true, List.mem_map, List.mem_attach,
      List.isEmpty_iff] at h
    obtain ⟨hf, hs⟩ := h
    subst hf
    simp only [List.map_nil, List.nil_append, List.flatten_eq_nil_iff, List.mem_map,
      List.mem_attach, true_and]
    rintro l ⟨x, rfl⟩
    have hx : noFiles x.1.2 = true := hs _ ⟨x, by simp⟩
    rw [ih x.1 x.2 hx]
    simp

/-- C1: for every source directory, `create_zip` produces an archive whose
entry set is exactly one entry per regular file found anywhere under the
source directory (recursively), each entry named by the file's path relative
to the source directory root, with no entries for directories themselves and
no filtering or deduplication. -/
theorem create_zip_exact_recursive_listing (source_dir : List String) (t : DirTree) :
    (create_zip source_dir t).entries = filesUnder t :=
  create_zip_entries_eq source_dir t

/-- C10: for every source directory that exists but contains no files
(empty, or containing only file-free subdirectories), `create_zip` still
succeeds and produces an archive containing zero entries, rather than
failing or skipping archive creation. -/
theorem create_zip_empty_tree (source_dir : List String) (t : DirTree)
    (h : noFiles t = true) :
    create_zip source_dir t = ZipArchive.mk [] := by
  have he := create_zip_entries_eq source_dir t
  rw [filesUnder_eq_nil_of_noFiles t h] at he
  cases hz : create_zip source_dir t
  simp_all

/-- Witness for C10 at a source directory holding one empty subdirectory. -/
theorem create_zip_empty_tree_witness :
    noFiles (DirTree.node [] [("sub", DirTree.node [] [])]) = true ∧
      create_zip ["base", "downloaded_packages"]
        (DirTree.node [] [("sub", DirTree.node [] [])]) = ZipArchive.mk [] := by
  have h : noFiles (DirTree.node [] [("sub", DirTree.node [] [])]) = true := by
    simp [noFiles]
  exact ⟨h, create_zip_empty_tree _ _ h⟩

/-! ## Uploader: `upload_to_snowflake` -/

/-- The keyword arguments passed to `snowflake.connector.connect`.  The three
mandatory credentials are plain strings; the four optional ones are passed
through as read from the environment (`none` models Python `None`). -/
structure ConnectParams : Type where
  account : String
  user : String
  password : String
  role : Option String
  warehouse : Option String
  database : Option String
  schema : Option String
deriving DecidableEq

/-- The observable external calls `upload_to_snowflake` makes: environment
reads, the driver connect, cursor creation, command execution, result fetch,
and connection close. -/
inductive SfEvent : Type where
  | getenv (key : String)
  | connect (p : ConnectParams)
  | cursor
  | execute (cmd : String)
  | fetchall
  | close
deriving DecidableEq

/-- How `upload_to_snowflake` terminates. -/
inductive UploadOutcome : Type where
  | exited (code : Nat)
  | valueError (msg : String)
  | raised
  | ok
deriving DecidableEq

/-- Python truthiness of an optional environment string: `None` and the
empty string are falsy. -/
def truthy : Option String → Bool
  | none => false
  | some s => !s.isEmpty

/-- Model of `os.path.abspath cwd p`: `p` itself when already absolute,
otherwise joined onto the current working directory. -/
def abspath (cwd p : String) : String :=
  if p.startsWith "/" then p else cwd ++ "/" ++ p

/-- The uploader `upload_to_snowflake zip_file_path stage_name`, transcribed from the
source.  `driverAvailable` models whether `import snowflake.connector`
succeeds; `env` is `os.environ`; `cwd` feeds `os.path.abspath`;
`executeRaises` models the PUT execution raising.  Returns the trace of
external calls and the outcome. -/
def upload_to_snowflake (driverAvailable : Bool) (env : String → Option String)
    (cwd zip_file_path stage_name : String) (executeRaises : Bool) :
    List SfEvent × UploadOutcome :=
  if !driverAvailable then
    ([], UploadOutcome.exited 1)
  else
    let account := env "SNOWFLAKE_ACCOUNT"
    let user := env "SNOWFLAKE_USER"
    let password := env "SNOWFLAKE_PASSWORD"
    let role := env "SNOWFLAKE_ROLE"
    let warehouse := env "SNOWFLAKE_WAREHOUSE"
    let database := env "SNOWFLAKE_DATABASE"
    let schema := env "SNOWFLAKE_SCHEMA"
    let reads := [SfEvent.getenv "SNOWFLAKE_ACCOUNT", SfEvent.getenv "SNOWFLAKE_USER",
      SfEvent.getenv "SNOWFLAKE_PASSWORD", SfEvent.getenv "SNOWFLAKE_ROLE",
      SfEvent.getenv "SNOWFLAKE_WAREHOUSE", SfEvent.getenv "SNOWFLAKE_DATABASE",
      SfEvent.getenv "SNOWFLAKE_SCHEMA"]
    if !(truthy account && truthy user && truthy password) then
      (reads, UploadOutcome.valueError "Missing Snowflake credentials")
    else
      let p : ConnectParams :=
        ConnectParams.mk (account.getD "") (user.getD "") (password.getD "")
          role warehouse database schema
      let put_cmd := "PUT file://" ++ abspath cwd zip_file_path ++ " " ++ stage_name
        ++ " AUTO_COMPRESS=FALSE OVERWRITE=TRUE"
      if executeRaises then
        (reads ++ [SfEvent.connect p, SfEvent.cursor, SfEvent.execute put_cmd,
          SfEvent.close], UploadOutcome.raised)
      else
        (reads ++ [SfEvent.connect p, SfEvent.cursor, SfEvent.execute put_cmd,
          SfEvent.fetchall, SfEvent.close], UploadOutcome.ok)

/-- C2: in every environment in which at least one of the mandatory
credentials (account, user, password) is absent, `upload_to_snowflake`
raises the missing-credentials `ValueError` before any connection attempt is
made: no `connect` call appears in the trace. -/
theorem upload_missing_creds (env : String → Option String)
    (cwd zp st : String) (er : Bool)
    (h : env "SNOWFLAKE_ACCOUNT" = none ∨ env "SNOWFLAKE_USER" = none ∨
      env "SNOWFLAKE_PASSWORD" = none) :
    (upload_to_snowflake true env cwd zp st er).2
        = UploadOutcome.valueError "Missing Snowflake credentials" ∧
      ∀ p, SfEvent.connect p ∉ (upload_to_snowflake true env cwd zp st er).1 := by
  have hcred : (truthy (env "SNOWFLAKE_ACCOUNT") && truthy (env "SNOWFLAKE_USER")
      && truthy (env "SNOWFLAKE_PASSWORD")) = false := by
    rcases h with h | h | h <;> simp [h, truthy]
  constructor
  · simp [upload_to_snowflake, hcred]
  · intro p
    simp [upload_to_snowflake, hcred]

/-- Witness for C2: the empty environment. -/
theorem upload_missing_creds_witness :
    (upload_to_snowflake true (fun _ => none) "/work" "app_packages.zip"
        "@DB.SCHEMA.STAGE" false).2
      = UploadOutcome.valueError "Missing Snowflake credentials" ∧
    ∀ p, SfEvent.connect p ∉ (upload_to_snowflake true (fun _ => none) "/work"
      "app_packages.zip" "@DB.SCHEMA.STAGE" false).1 :=
  upload_missing_creds (fun _ => none) "/work" "app_packages.zip"
    "@DB.SCHEMA.STAGE" false (Or.inl rfl)

/-- A set, non-empty environment string is truthy. -/
theorem truthy_eq_true {s : String} (h : s ≠ "") : truthy (some s) = true := by
  simp only [truthy]
  cases hs : s.isEmpty
  · rfl
  · exact absurd ((String.isEmpty_iff s).mp hs) h

/-- Selects the `connect` calls of a trace. -/
def isConnect : SfEvent → Bool
  | SfEvent.connect _ => true
  | _ => false

/-- Selects the `execute` calls of a trace. -/
def isExecute : SfEvent → Bool
  | SfEvent.execute _ => true
  | _ => false

/-- C3: in every run in which all three mandatory credentials are present,
`upload_to_snowflake` establishes the connection with exactly the
environment-derived values and executes a transfer command string exactly
equal to `PUT file://<absolute-archive-path> <stage-target>
AUTO_COMPRESS=FALSE OVERWRITE=TRUE`, with the local archive path made
absolute. -/
theorem upload_connect_and_put (env : String → Option String)
    (cwd zp st : String) (er : Bool) (a u pw : String)
    (ha : env "SNOWFLAKE_ACCOUNT" = some a) (ha' : a ≠ "")
    (hu : env "SNOWFLAKE_USER" = some u) (hu' : u ≠ "")
    (hp : env "SNOWFLAKE_PASSWORD" = some pw) (hp' : pw ≠ "") :
    (upload_to_snowflake true env cwd zp st er).1.filter isConnect
        = [SfEvent.connect (ConnectParams.mk a u pw (env "SNOWFLAKE_ROLE")
            (env "SNOWFLAKE_WAREHOUSE") (env "SNOWFLAKE_DATABASE")
            (env "SNOWFLAKE_SCHEMA"))] ∧
      (upload_to_snowflake true env cwd zp st er).1.filter isExecute
        = [SfEvent.execute ("PUT file://" ++ abspath cwd zp ++ " " ++ st
            ++ " AUTO_COMPRESS=FALSE OVERWRITE=TRUE")] := by
  have hta : truthy (some a) = true := truthy_eq_true ha'
  have htu : truthy (some u) = true := truthy_eq_true hu'
  have htp : truthy (some pw) = true := truthy_eq_true hp'
  cases er <;>
    simp [upload_to_snowflake, ha, hu, hp, hta, htu, htp, List.filter, isConnect, isExecute]

/-- Witness for C3 in an environment supplying every credential. -/
theorem upload_connect_and_put_witness :
    (upload_to_snowflake true (fun k => some k) "/work" "app_packages.zip"
        "@DB.SCHEMA.STAGE" false).1.filter isConnect
      = [SfEvent.connect (ConnectParams.mk "SNOWFLAKE_ACCOUNT" "SNOWFLAKE_USER"
          "SNOWFLAKE_PASSWORD" (some "SNOWFLAKE_ROLE") (some "SNOWFLAKE_WAREHOUSE")
          (some "SNOWFLAKE_DATABASE") (some "SNOWFLAKE_SCHEMA"))] ∧
    (upload_to_snowflake true (fun k => some k) "/work" "app_packages.zip"
        "@DB.SCHEMA.STAGE" false).1.filter isExecute
      = [SfEvent.execute ("PUT file://" ++ abspath "/work" "app_packages.zip"
          ++ " " ++ "@DB.SCHEMA.STAGE" ++ " AUTO_COMPRESS=FALSE OVERWRITE=TRUE")] :=
  upload_connect_and_put (fun k => some k) "/work" "app_packages.zip"
    "@DB.SCHEMA.STAGE" false "SNOWFLAKE_ACCOUNT" "SNOWFLAKE_USER" "SNOWFLAKE_PASSWORD"
    rfl (by decide) rfl (by decide) rfl (by decide)

/-- C4: in every invocation of `upload_to_snowflake` in which a connection is
established, the connection is closed exactly once before the function
returns, on both the success path and the path where executing the transfer
command raises. -/
theorem upload_close_exactly_once (d : Bool) (env : String → Option String)
    (cwd zp st : String) (er : Bool)
    (h : ∃ p, SfEvent.connect p ∈ (upload_to_snowflake d env cwd zp st er).1) :
    (upload_to_snowflake d env cwd zp st er).1.count SfEvent.close = 1 ∧
      (upload_to_snowflake d env cwd zp st er).1.getLast? = some SfEvent.close := by
  obtain ⟨p, hp⟩ := h
  cases d with
  | false => simp [upload_to_snowflake] at hp
  | true =>
    by_cases hcred : (truthy (env "SNOWFLAKE_ACCOUNT") && truthy (env "SNOWFLAKE_USER")
        && truthy (env "SNOWFLAKE_PASSWORD")) = true
    · cases er <;> simp [upload_to_snowflake, hcred, List.count, List.getLast?]
    · rw [Bool.not_eq_true] at hcred
      simp [upload_to_snowflake, hcred] at hp

/-- Witness for C4: a fully credentialed run whose PUT execution raises. -/
theorem upload_close_exactly_once_witness :
    (∃ p, SfEvent.connect p ∈ (upload_to_snowflake true (fun k => some k) "/work"
        "app_packages.zip" "@DB.SCHEMA.STAGE" true).1) ∧
    (upload_to_snowflake true (fun k => some k) "/work" "app_packages.zip"
        "@DB.SCHEMA.STAGE" true).1.count SfEvent.close = 1 ∧
    (upload_to_snowflake true (fun k => some k) "/work" "app_packages.zip"
        "@DB.SCHEMA.STAGE" true).1.getLast? = some SfEvent.close := by
  have h : ∃ p, SfEvent.connect p ∈ (upload_to_snowflake true (fun k => some k) "/work"
      "app_packages.zip" "@DB.SCHEMA.STAGE" true).1 := by
    refine ⟨ConnectParams.mk "SNOWFLAKE_ACCOUNT" "SNOWFLAKE_USER" "SNOWFLAKE_PASSWORD"
      (some "SNOWFLAKE_ROLE") (some "SNOWFLAKE_WAREHOUSE") (some "SNOWFLAKE_DATABASE")
      (some "SNOWFLAKE_SCHEMA"), ?_⟩
    have e1 : ("SNOWFLAKE_ACCOUNT" : String).isEmpty = false := rfl
    have e2 : ("SNOWFLAKE_USER" : String).isEmpty = false := rfl
    have e3 : ("SNOWFLAKE_PASSWORD" : String).isEmpty = false := rfl
    simp [upload_to_snowflake, truthy, e1, e2, e3]
  exact ⟨h, upload_close_exactly_once true (fun k => some k) "/work" "app_packages.zip"
    "@DB.SCHEMA.STAGE" true h⟩

/-- C8: whenever the warehouse driver library cannot be imported,
`upload_to_snowflake` terminates the process immediately with exit status 1
via a distinct exit path, with an empty trace: no environment variable is
read and no connection logic runs. -/
theorem upload_missing_driver (env : String → Option String)
    (cwd zp st : String) (er : Bool) :
    upload_to_snowflake false env cwd zp st er = ([], UploadOutcome.exited 1) := rfl

/-- C9: in every environment in which any mandatory credential variable is
set but equal to the empty string, `upload_to_snowflake` treats it the same
as absent and raises the missing-credentials `ValueError` before connecting,
because the check tests truthiness rather than presence. -/
theorem upload_empty_string_cred (env : String → Option String)
    (cwd zp st : String) (er : Bool)
    (h : env "SNOWFLAKE_ACCOUNT" = some "" ∨ env "SNOWFLAKE_USER" = some "" ∨
      env "SNOWFLAKE_PASSWORD" = some "") :
    (upload_to_snowflake true env cwd zp st er).2
        = UploadOutcome.valueError "Missing Snowflake credentials" ∧
      ∀ p, SfEvent.connect p ∉ (upload_to_snowflake true env cwd zp st er).1 := by
  have he : ("" : String).isEmpty = true := rfl
  have hcred : (truthy (env "SNOWFLAKE_ACCOUNT") && truthy (env "SNOWFLAKE_USER")
      && truthy (env "SNOWFLAKE_PASSWORD")) = false := by
    rcases h with h | h | h <;> simp [h, truthy, he]
  constructor
  · simp [upload_to_snowflake, hcred]
  · intro p
    simp [upload_to_snowflake, hcred]

/-- Witness for C9: every credential set to the empty string. -/
theorem upload_empty_string_cred_witness :
    (upload_to_snowflake true (fun _ => some "") "/work" "app_packages.zip"
        "@DB.SCHEMA.STAGE" false).2
      = UploadOutcome.valueError "Missing Snowflake credentials" ∧
    ∀ p, SfEvent.connect p ∉ (upload_to_snowflake true (fun _ => some "") "/work"
      "app_packages.zip" "@DB.SCHEMA.STAGE" false).1 :=
  upload_empty_string_cred (fun _ => some "") "/work" "app_packages.zip"
    "@DB.SCHEMA.STAGE" false (Or.inl rfl)

/-! ## Fetcher: `download_packages` -/

/-- The observable external calls `download_packages` makes: recursive
directory removal, directory creation, and the pip subprocess invocation. -/
inductive FetchEvent : Type where
  | rmtree (dir : String)
  | makedirs (dir : String)
  | check_call (cmd : List String)
deriving DecidableEq

/-- How `download_packages` terminates: normally, or by re-raising the
`CalledProcessError` of a failed pip invocation. -/
inductive FetchOutcome : Type where
  | ok
  | raised
deriving DecidableEq

/-- The pip command line built by `download_packages`. -/
def pipCmd (pythonExe requirements_path download_dir : String)
    (index_url : Option String) : List String :=
  [pythonExe, "-m", "pip", "download",
    "-r", requirements_path,
    "-d", download_dir,
    "--platform", "manylinux2014_x86_64",
    "--only-binary=:all:",
    "--python-version", "3.8"]
  ++ (match index_url with
      | some u => ["--index-url", u]
      | none => [])

/-- The download directory's contents as the fetcher's events act on it:
`none` means the directory is absent, `some fs` that it exists and holds the
artifact files `fs`.  `rmtree` removes it, `makedirs` creates it empty, and
the pip subprocess itself does not act on it before downloading. -/
def execFetch : Option (List String) → List FetchEvent → Option (List String)
  | s, [] => s
  | _, FetchEvent.rmtree _ :: rest => execFetch none rest
  | _, FetchEvent.makedirs _ :: rest => execFetch (some []) rest
  | s, FetchEvent.check_call _ :: rest => execFetch s rest

/-- The fetcher `download_packages requirements_path download_dir index_url`, transcribed
from the source: remove the download directory if it exists, recreate it,
then invoke pip.  `dirState` is the directory's state at entry and
`pipSucceeds` models the subprocess exit. -/
def download_packages (dirState : Option (List String))
    (pythonExe requirements_path download_dir : String)
    (index_url : Option String) (pipSucceeds : Bool) :
    List FetchEvent × FetchOutcome :=
  ((if dirState.isSome then [FetchEvent.rmtree download_dir] else []) ++
    [FetchEvent.makedirs download_dir,
      FetchEvent.check_call (pipCmd pythonExe requirements_path download_dir index_url)],
    if pipSucceeds then FetchOutcome.ok else FetchOutcome.raised)

/-- C5: in every run of `download_packages`, the target directory is removed
recursively exactly when it existed at entry, and a new empty directory is
in place before the external download command is invoked, so no artifact
from a prior run survives into the new one. -/
theorem download_packages_fresh_dir (dirState : Option (List String))
    (pythonExe requirements_path download_dir : String)
    (index_url : Option String) (pipSucceeds : Bool) :
    ∃ pre,
      (download_packages dirState pythonExe requirements_path download_dir
          index_url pipSucceeds).1
        = pre ++ [FetchEvent.check_call
            (pipCmd pythonExe requirements_path download_dir index_url)] ∧
      execFetch dirState pre = some [] ∧
      (∀ c, FetchEvent.check_call c ∉ pre) ∧
      FetchEvent.makedirs download_dir ∈ pre ∧
      (FetchEvent.rmtree download_dir ∈ pre ↔ dirState.isSome = true) := by
  cases dirState with
  | none =>
    refine ⟨[FetchEvent.makedirs download_dir], ?_⟩
    simp [download_packages, execFetch]
  | some fs =>
    refine ⟨[FetchEvent.rmtree download_dir, FetchEvent.makedirs download_dir], ?_⟩
    simp [download_packages, execFetch]

/-! ## Orchestrator: `main` -/

/-- Whether a pipeline stage completes or raises. -/
inductive StageResult : Type where
  | ok
  | raises
deriving DecidableEq

/-- The stage invocations and cleanup calls `main` makes. -/
inductive MainEvent : Type where
  | download
  | createZip
  | upload
  | rmtreeCleanup
  | removeZip
deriving DecidableEq

/-- The intermediate artifacts on disk: whether the download directory and
the local archive file exist. -/
structure MainState : Type where
  downloadDirExists : Bool
  zipExists : Bool
deriving DecidableEq

/-- Cleanup of the download directory: removed when it exists. -/
def cleanupDir (s : MainState) : List MainEvent × MainState :=
  if s.downloadDirExists then
    ([MainEvent.rmtreeCleanup], MainState.mk false s.zipExists)
  else ([], s)

/-- Cleanup of the archive file: removed when it exists. -/
def cleanupZip (s : MainState) : List MainEvent × MainState :=
  if s.zipExists then
    ([MainEvent.removeZip], MainState.mk s.downloadDirExists false)
  else ([], s)

/-- The orchestrator `main`, transcribed from the source: run the three stages in order
inside one `try`; on the first exception log and `sys.exit(1)` with no
cleanup; after all three succeed, remove the download directory and the
archive file if they exist, and finish with exit status 0.

`s0` is the artifact state before the run.  `download_packages` recreates
the download directory before pip runs, so it exists from the download stage
on even if that stage raises; `create_zip` opens the archive for writing, so
the archive file exists from the zip stage on. -/
def main (s0 : MainState) (dl zp up : StageResult) :
    List MainEvent × MainState × Nat :=
  let s1 : MainState := MainState.mk true s0.zipExists
  if dl = StageResult.raises then
    ([MainEvent.download], s1, 1)
  else
    let s2 : MainState := MainState.mk true true
    if zp = StageResult.raises then
      ([MainEvent.download, MainEvent.createZip], s2, 1)
    else if up = StageResult.raises then
      ([MainEvent.download, MainEvent.createZip, MainEvent.upload], s2, 1)
    else
      let c1 := cleanupDir s2
      let c2 := cleanupZip c1.2
      ([MainEvent.download, MainEvent.createZip, MainEvent.upload] ++ c1.1 ++ c2.1,
        c2.2, 0)

/-- C6: in every run in which a stage raises, `main` exits with non-zero
status 1, no later stage is invoked, and no cleanup is attempted; in
particular when the download stage fails, `create_zip` and the upload are
never invoked and the archive file's existence is unchanged from before the
run. -/
theorem main_stage_failure (s0 : MainState) (dl zp up : StageResult)
    (h : dl = StageResult.raises ∨ zp = StageResult.raises ∨ up = StageResult.raises) :
    (main s0 dl zp up).2.2 = 1 ∧
      MainEvent.rmtreeCleanup ∉ (main s0 dl zp up).1 ∧
      MainEvent.removeZip ∉ (main s0 dl zp up).1 ∧
      (dl = StageResult.raises →
        MainEvent.createZip ∉ (main s0 dl zp up).1 ∧
        MainEvent.upload ∉ (main s0 dl zp up).1 ∧
        (main s0 dl zp up).2.1.zipExists = s0.zipExists) ∧
      (zp = StageResult.raises → MainEvent.upload ∉ (main s0 dl zp up).1) := by
  cases dl <;> cases zp <;> cases up <;> simp_all [main]

/-- Witness for C6: the download stage fails with no pre-existing archive. -/
theorem main_stage_failure_witness :
    (main (MainState.mk false false) StageResult.raises StageResult.ok
        StageResult.ok).2.2 = 1 ∧
      MainEvent.rmtreeCleanup ∉ (main (MainState.mk false false) StageResult.raises
        StageResult.ok StageResult.ok).1 ∧
      MainEvent.removeZip ∉ (main (MainState.mk false false) StageResult.raises
        StageResult.ok StageResult.ok).1 ∧
      (StageResult.raises = StageResult.raises →
        MainEvent.createZip ∉ (main (MainState.mk false false) StageResult.raises
          StageResult.ok StageResult.ok).1 ∧
        MainEvent.upload ∉ (main (MainState.mk false false) StageResult.raises
          StageResult.ok StageResult.ok).1 ∧
        (main (MainState.mk false false) StageResult.raises StageResult.ok
          StageResult.ok).2.1.zipExists = (MainState.mk false false).zipExists) ∧
      (StageResult.ok = StageResult.raises →
        MainEvent.upload ∉ (main (MainState.mk false false) StageResult.raises
          StageResult.ok StageResult.ok).1) :=
  main_stage_failure (MainState.mk false false) StageResult.raises StageResult.ok
    StageResult.ok (Or.inl rfl)

/-- C7: in every run in which all three stages complete, `main` invokes the
stages in order, deletes the download directory and the archive file (both
exist at that point), leaves both absent, and exits with status 0. -/
theorem main_success_cleanup (s0 : MainState) :
    main s0 StageResult.ok StageResult.ok StageResult.ok
      = ([MainEvent.download, MainEvent.createZip, MainEvent.upload,
          MainEvent.rmtreeCleanup, MainEvent.removeZip],
         MainState.mk false false, 0) := by
  simp [main, cleanupDir, cleanupZip]

end SyncSnowflakePackages
